import Mathlib

/-!
Verification of the asset-encoding core of the miden-base repository
(`objects/src/assets/mod.rs`), against its natural-language specification.

The `Asset` dispatch code (classification, `is_same`, `vault_key`, the
unwrap accessors, `TryFrom<Word>`, and the serialization dispatch) is
embedded directly from `src/objects/src/assets/mod.rs`.  The variant types
`FungibleAsset`, `NonFungibleAsset` and the `AccountId` bit layout live in
repository files that are not part of the provided sources, so those are
modelled from the specification (sections 3, 4.1, 4.3, 4.4 and 6); each
such definition carries a doc comment starting `Modelled from the spec:`.

Machine integers are modelled as `Nat` with explicit bounds; field
elements are `Nat` values below the Miden prime `2^64 - 2^32 + 1`;
byte streams are `List Nat` with every entry below 256; fallible
operations return `Except`.
-/

-- DATA MODEL
-- =============================================================================

/-- Modelled from the spec: the field modulus. A field element is a
non-negative integer strictly below this prime (the Miden field prime
`2^64 - 2^32 + 1`). -/
def fieldModulus : Nat := 2 ^ 64 - 2 ^ 32 + 1

/-- A `Word` is a fixed-size ordered sequence of exactly 4 field elements.
Element order is significant; element 3 is the most significant and carries
the type-tag bits.  Elements are modelled as `Nat` (the `as_int` view of a
felt); validity predicates bound them by `fieldModulus` where it matters. -/
structure Word where
  e0 : Nat
  e1 : Nat
  e2 : Nat
  e3 : Nat
deriving DecidableEq, Repr

/-- Modelled from the spec: the faucet flag bit of an `AccountId` element is
the 3rd most significant bit of the 64-bit value, i.e. bit 61.
`ACCOUNT_ISFAUCET_MASK` selects exactly that bit. -/
def ACCOUNT_ISFAUCET_MASK : Nat := 2 ^ 61

/-- Modelled from the spec: the four account types distinguished by the
account-type bits of an `AccountId`. -/
inductive AccountType where
  | RegularAccountImmutableCode
  | RegularAccountUpdatableCode
  | FungibleFaucet
  | NonFungibleFaucet
deriving DecidableEq, Repr

/-- Modelled from the spec: an `AccountId` is a single field element whose
bit layout reserves the faucet flag bit (bit 61, `ACCOUNT_ISFAUCET_MASK`)
and account-type bits.  The invariant that the faucet flag bit agrees with
the account-type field (faucet types imply bit = 1, non-faucet types imply
bit = 0) is realised by placing the type bits at positions 61 and 60, so
that bit 61 doubles as the faucet flag: `00` and `01` are the two regular
account types, `10` is `FungibleFaucet` and `11` is `NonFungibleFaucet`.
The id is modelled as the raw `Nat` element value. -/
def accountTypeOf (id : Nat) : AccountType :=
  match id.testBit 61, id.testBit 60 with
  | false, false => AccountType.RegularAccountImmutableCode
  | false, true => AccountType.RegularAccountUpdatableCode
  | true, false => AccountType.FungibleFaucet
  | true, true => AccountType.NonFungibleFaucet

/-- Modelled from the spec: `AccountId::is_faucet` is a pure bit test on
the faucet flag bit. -/
def accountIdIsFaucet (id : Nat) : Bool := id.testBit 61

/-- Modelled from the spec: errors raised by asset constructors. -/
inductive AssetError where
  | AmountTooLarge (amount : Nat)
  | NotAFungibleFaucetId (id : Nat)
  | NotANonFungibleFaucetId (id : Nat)
  | FungibleAssetInvalidWord (w : Word)
deriving DecidableEq, Repr

/-- Deserialization failures of the byte-stream reader, as used by
`Asset::read_from`: `InvalidValue` carries a message, `UnexpectedEOF`
signals a truncated stream. -/
inductive DeserializationError where
  | InvalidValue (msg : String)
  | UnexpectedEOF
deriving DecidableEq, Repr

-- FUNGIBLE ASSET (modelled from the spec, section 4.3)
-- =============================================================================

/-- Modelled from the spec: a fungible asset is a pair of the issuing
faucet's `AccountId` and a `u64` amount; its word encoding places the
faucet id in element 3, the amount in element 0, and `ZERO` in elements
1 and 2. -/
structure FungibleAsset where
  faucet_id : Nat
  amount : Nat
deriving DecidableEq, Repr

/-- Modelled from the spec: the maximum representable amount, `2^63 - 1`. -/
def FungibleAsset.MAX_AMOUNT : Nat := 2 ^ 63 - 1

/-- Modelled from the spec: `FungibleAsset::new(faucet_id, amount)` fails
with `AmountTooLarge` if `amount > 2^63 - 1` and with
`NotAFungibleFaucetId` if the faucet id's account type is not
`FungibleFaucet`. -/
def FungibleAsset.new (faucet_id : Nat) (amount : Nat) :
    Except AssetError FungibleAsset :=
  if amount > FungibleAsset.MAX_AMOUNT then
    Except.error (AssetError.AmountTooLarge amount)
  else if accountTypeOf faucet_id ≠ AccountType.FungibleFaucet then
    Except.error (AssetError.NotAFungibleFaucetId faucet_id)
  else
    Except.ok ⟨faucet_id, amount⟩

/-- Modelled from the spec: the unchecked fungible constructor reads the
faucet id from element 3 and the amount from element 0 of the word, with
no validation. -/
def FungibleAsset.new_unchecked (value : Word) : FungibleAsset :=
  ⟨value.e3, value.e0⟩

/-- Modelled from the spec: the checked conversion from a word validates
the internal constraints of the fungible encoding — elements 1 and 2 must
be `ZERO` — and then defers to `FungibleAsset::new` for the amount bound
and the faucet account type. -/
def FungibleAsset.try_from (value : Word) : Except AssetError FungibleAsset :=
  if value.e1 ≠ 0 ∨ value.e2 ≠ 0 then
    Except.error (AssetError.FungibleAssetInvalidWord value)
  else
    FungibleAsset.new value.e3 value.e0

/-- Modelled from the spec: `is_from_same_faucet` compares only the
faucet-id element, ignoring the amount. -/
def FungibleAsset.is_from_same_faucet (l r : FungibleAsset) : Bool :=
  l.faucet_id == r.faucet_id

/-- Modelled from the spec: the word encoding of a fungible asset —
element 3 is the faucet id, elements 1 and 2 are `ZERO`, element 0 is the
amount. -/
def FungibleAsset.toWord (f : FungibleAsset) : Word :=
  ⟨f.amount, 0, 0, f.faucet_id⟩

/-- Modelled from the spec: the fungible vault key is determined by the
faucet id alone (amounts of one faucet collapse to one storage slot); as a
word it carries the faucet id in the id position (element 3) and `ZERO`
elsewhere. -/
def FungibleAsset.vault_key (f : FungibleAsset) : Word :=
  ⟨0, 0, 0, f.faucet_id⟩

-- NON-FUNGIBLE ASSET (modelled from the spec, section 4.4)
-- =============================================================================

/-- Modelled from the spec: the details of a non-fungible asset are the
issuing faucet's id together with an arbitrary-length byte blob. -/
structure NonFungibleAssetDetails where
  faucet_id : Nat
  asset_data : List Nat
deriving DecidableEq, Repr

/-- A non-fungible asset is its encoded word. -/
structure NonFungibleAsset where
  word : Word
deriving DecidableEq, Repr

/-- Modelled from the spec: the 64-bit complement of
`ACCOUNT_ISFAUCET_MASK`, used to force the faucet flag bit of element 3
to `ZERO` in the non-fungible encoding. -/
def NOT_ACCOUNT_ISFAUCET_MASK : Nat := 2 ^ 64 - 1 - 2 ^ 61

/-- Modelled from the spec: clear the faucet flag bit (bit 61) of a
64-bit element. -/
def clearFungibleFlag (x : Nat) : Nat := x &&& NOT_ACCOUNT_ISFAUCET_MASK

/-- Modelled from the spec: `NonFungibleAsset::new(details)` fails with
`NotANonFungibleFaucetId` if the faucet id's account type is not
`NonFungibleFaucet`; otherwise `digest = hash(data)` and the output word
is `[digest[0], faucet_id, digest[2], digest[3] with flag bit cleared]`.
The collision-resistant hash is a given external primitive and is passed
as a function argument. -/
def NonFungibleAsset.new (hash : List Nat → Word)
    (details : NonFungibleAssetDetails) : Except AssetError NonFungibleAsset :=
  if accountTypeOf details.faucet_id ≠ AccountType.NonFungibleFaucet then
    Except.error (AssetError.NotANonFungibleFaucetId details.faucet_id)
  else
    let digest := hash details.asset_data
    Except.ok ⟨⟨digest.e0, details.faucet_id, digest.e2,
      clearFungibleFlag digest.e3⟩⟩

/-- Modelled from the spec: the unchecked non-fungible constructor wraps
the word with no validation. -/
def NonFungibleAsset.new_unchecked (value : Word) : NonFungibleAsset :=
  ⟨value⟩

/-- Modelled from the spec: the checked conversion from a word validates
that the embedded faucet id (element 1) is a well-formed non-fungible
faucet id. -/
def NonFungibleAsset.try_from (value : Word) :
    Except AssetError NonFungibleAsset :=
  if accountTypeOf value.e1 ≠ AccountType.NonFungibleFaucet then
    Except.error (AssetError.NotANonFungibleFaucetId value.e1)
  else
    Except.ok ⟨value⟩

/-- Modelled from the spec: the faucet id of a non-fungible asset sits in
element 1 of its word. -/
def NonFungibleAsset.faucet_id (n : NonFungibleAsset) : Nat := n.word.e1

/-- Modelled from the spec: the non-fungible vault key is the full encoded
asset word, so each non-fungible asset is its own storage slot. -/
def NonFungibleAsset.vault_key (n : NonFungibleAsset) : Word := n.word

-- ASSET (embedded from src/objects/src/assets/mod.rs)
-- =============================================================================

/-- A fungible or a non-fungible asset (`enum Asset`). -/
inductive Asset where
  | Fungible (asset : FungibleAsset)
  | NonFungible (asset : NonFungibleAsset)
deriving DecidableEq, Repr

/-- Helper `is_not_a_non_fungible_asset`: true when the faucet flag bit of
element 3 is set (`(asset[3].as_int() & ACCOUNT_ISFAUCET_MASK) ==
ACCOUNT_ISFAUCET_MASK`). -/
def is_not_a_non_fungible_asset (asset : Word) : Bool :=
  (asset.e3 &&& ACCOUNT_ISFAUCET_MASK) == ACCOUNT_ISFAUCET_MASK

/-- `Asset::new_unchecked`: classify by the faucet flag bit; interpret as
fungible when it is set and as non-fungible otherwise, without validity
checks. -/
def Asset.new_unchecked (value : Word) : Asset :=
  if is_not_a_non_fungible_asset value then
    Asset.Fungible (FungibleAsset.new_unchecked value)
  else
    Asset.NonFungible (NonFungibleAsset.new_unchecked value)

/-- `Asset::is_same`: fungible against fungible compares faucets only,
non-fungible against non-fungible compares full identity, cross-variant
comparison is false. -/
def Asset.is_same (a other : Asset) : Bool :=
  match a, other with
  | Asset.Fungible l, Asset.Fungible r => l.is_from_same_faucet r
  | Asset.NonFungible l, Asset.NonFungible r => l == r
  | _, _ => false

/-- `Asset::is_fungible`. -/
def Asset.is_fungible : Asset → Bool
  | Asset.Fungible _ => true
  | Asset.NonFungible _ => false

/-- `Asset::faucet_id`: dispatch to the active variant. -/
def Asset.faucet_id : Asset → Nat
  | Asset.Fungible asset => asset.faucet_id
  | Asset.NonFungible asset => asset.faucet_id

/-- `Asset::vault_key`: dispatch to the active variant. -/
def Asset.vault_key : Asset → Word
  | Asset.Fungible asset => asset.vault_key
  | Asset.NonFungible asset => asset.vault_key

/-- `Asset::unwrap_fungible`: returns the inner fungible asset, or panics
(modelled as `none`) when the asset is non-fungible. -/
def Asset.unwrap_fungible : Asset → Option FungibleAsset
  | Asset.Fungible asset => some asset
  | Asset.NonFungible _ => none

/-- `Asset::unwrap_non_fungible`: returns the inner non-fungible asset, or
panics (modelled as `none`) when the asset is fungible. -/
def Asset.unwrap_non_fungible : Asset → Option NonFungibleAsset
  | Asset.Fungible _ => none
  | Asset.NonFungible asset => some asset

/-- The `From<Asset> for Word` conversion: dispatch to the variant's word
encoding. -/
def Asset.toWord : Asset → Word
  | Asset.Fungible asset => asset.toWord
  | Asset.NonFungible asset => asset.word

/-- `TryFrom<Word> for Asset`: the same flag-bit classification as
`new_unchecked`, but through the validating variant constructors. -/
def Asset.try_from (value : Word) : Except AssetError Asset :=
  if is_not_a_non_fungible_asset value then
    (FungibleAsset.try_from value).map Asset.Fungible
  else
    (NonFungibleAsset.try_from value).map Asset.NonFungible

-- SERIALIZATION
-- =============================================================================

/-- Modelled from the spec: the byte-stream writer encodes a 64-bit value
as 8 bytes, little-endian. -/
def u64ToBytes (x : Nat) : List Nat :=
  [x % 256, x / 2 ^ 8 % 256, x / 2 ^ 16 % 256, x / 2 ^ 24 % 256,
   x / 2 ^ 32 % 256, x / 2 ^ 40 % 256, x / 2 ^ 48 % 256, x / 2 ^ 56 % 256]

/-- Modelled from the spec: the byte-stream reader consumes 8 bytes and
reassembles the little-endian 64-bit value, failing on a truncated
stream. -/
def readU64 (s : List Nat) : Except DeserializationError (Nat × List Nat) :=
  match s with
  | b0 :: b1 :: b2 :: b3 :: b4 :: b5 :: b6 :: b7 :: rest =>
    Except.ok (b0 + 2 ^ 8 * b1 + 2 ^ 16 * b2 + 2 ^ 24 * b3 + 2 ^ 32 * b4 +
      2 ^ 40 * b5 + 2 ^ 48 * b6 + 2 ^ 56 * b7, rest)
  | _ => Except.error DeserializationError.UnexpectedEOF

/-- Modelled from the spec: a field element is written as its canonical
64-bit integer value. -/
def writeFelt (x : Nat) : List Nat := u64ToBytes x

/-- Modelled from the spec: reading a field element reads a 64-bit value
and rejects values outside the field with `InvalidValue`. -/
def readFelt (s : List Nat) : Except DeserializationError (Nat × List Nat) :=
  match readU64 s with
  | Except.error e => Except.error e
  | Except.ok (x, rest) =>
    if x < fieldModulus then Except.ok (x, rest)
    else Except.error (DeserializationError.InvalidValue
      "felt value is out of range")

/-- Modelled from the spec: an `AccountId` is serialized as its single
field element. -/
def writeAccountId (id : Nat) : List Nat := writeFelt id

/-- Modelled from the spec: an `AccountId` is deserialized by reading a
single field element. -/
def readAccountId (s : List Nat) :
    Except DeserializationError (Nat × List Nat) :=
  readFelt s

/-- Modelled from the spec: `FungibleAsset::write_into` writes the faucet
`AccountId` followed by the 8-byte amount. -/
def FungibleAsset.write_into (f : FungibleAsset) : List Nat :=
  writeAccountId f.faucet_id ++ u64ToBytes f.amount

/-- Modelled from the spec: the fungible payload decoder reads the 8-byte
amount after the already-consumed faucet id and reconstructs the asset
through the validating `FungibleAsset::new`, mapping construction errors
to `InvalidValue`. -/
def FungibleAsset.deserialize_with_account_id (faucet_id : Nat)
    (s : List Nat) : Except DeserializationError (FungibleAsset × List Nat) :=
  match readU64 s with
  | Except.error e => Except.error e
  | Except.ok (amount, rest) =>
    match FungibleAsset.new faucet_id amount with
    | Except.error _ => Except.error (DeserializationError.InvalidValue
        "failed to deserialize fungible asset")
    | Except.ok f => Except.ok (f, rest)

/-- Modelled from the spec: `NonFungibleAsset::write_into` writes the
faucet `AccountId` (element 1 of the word) first, followed by the
remaining elements 0, 2 and 3 of the digest-derived word. -/
def NonFungibleAsset.write_into (n : NonFungibleAsset) : List Nat :=
  writeAccountId n.word.e1 ++ writeFelt n.word.e0 ++ writeFelt n.word.e2 ++
    writeFelt n.word.e3

/-- Modelled from the spec: the non-fungible payload decoder reads the
three remaining field elements after the already-consumed faucet id,
reconstructs the word with the faucet id back in element 1, and validates
it through the checked conversion, mapping errors to `InvalidValue`. -/
def NonFungibleAsset.deserialize_with_account_id (faucet_id : Nat)
    (s : List Nat) :
    Except DeserializationError (NonFungibleAsset × List Nat) :=
  match readFelt s with
  | Except.error e => Except.error e
  | Except.ok (d0, s0) =>
    match readFelt s0 with
    | Except.error e => Except.error e
    | Except.ok (d2, s2) =>
      match readFelt s2 with
      | Except.error e => Except.error e
      | Except.ok (d3, s3) =>
        match NonFungibleAsset.try_from ⟨d0, faucet_id, d2, d3⟩ with
        | Except.error _ => Except.error (DeserializationError.InvalidValue
            "failed to deserialize non-fungible asset")
        | Except.ok n => Except.ok (n, s3)

/-- `Serializable for Asset`: `write_into` delegates to the active
variant's serializer. -/
def Asset.write_into : Asset → List Nat
  | Asset.Fungible fungible_asset => fungible_asset.write_into
  | Asset.NonFungible non_fungible_asset => non_fungible_asset.write_into

/-- `Deserializable for Asset`: read the leading `AccountId`, inspect its
account type, and dispatch to the matching variant's decoder; any other
account type fails with `InvalidValue`. -/
def Asset.read_from (source : List Nat) :
    Except DeserializationError (Asset × List Nat) :=
  match readAccountId source with
  | Except.error e => Except.error e
  | Except.ok (account_id, rest) =>
    match accountTypeOf account_id with
    | AccountType.FungibleFaucet =>
      (FungibleAsset.deserialize_with_account_id account_id rest).map
        (fun p => (Asset.Fungible p.1, p.2))
    | AccountType.NonFungibleFaucet =>
      (NonFungibleAsset.deserialize_with_account_id account_id rest).map
        (fun p => (Asset.NonFungible p.1, p.2))
    | _ => Except.error (DeserializationError.InvalidValue
        "failed to deserialize asset: expected an account ID of type faucet")

-- VALIDITY PREDICATES
-- =============================================================================

/-- A fungible asset value is valid when its faucet id is a field element
of account type `FungibleFaucet` and its amount is within the 63-bit
bound. -/
def FungibleAsset.isValid (f : FungibleAsset) : Prop :=
  f.faucet_id < fieldModulus ∧
  accountTypeOf f.faucet_id = AccountType.FungibleFaucet ∧
  f.amount ≤ FungibleAsset.MAX_AMOUNT

instance (f : FungibleAsset) : Decidable f.isValid := by
  unfold FungibleAsset.isValid
  infer_instance

/-- A non-fungible asset value is valid when its word's elements are field
elements, the embedded faucet id (element 1) has account type
`NonFungibleFaucet`, and the faucet flag bit of element 3 is `ZERO`. -/
def NonFungibleAsset.isValid (n : NonFungibleAsset) : Prop :=
  n.word.e0 < fieldModulus ∧ n.word.e1 < fieldModulus ∧
  n.word.e2 < fieldModulus ∧ n.word.e3 < fieldModulus ∧
  accountTypeOf n.word.e1 = AccountType.NonFungibleFaucet ∧
  n.word.e3.testBit 61 = false

instance (n : NonFungibleAsset) : Decidable n.isValid := by
  unfold NonFungibleAsset.isValid
  infer_instance

/-- An asset is valid when its active variant is. -/
def Asset.isValid : Asset → Prop
  | Asset.Fungible f => f.isValid
  | Asset.NonFungible n => n.isValid

instance (a : Asset) : Decidable a.isValid := by
  cases a <;> (unfold Asset.isValid) <;> infer_instance

/-- A word is a valid fungible-asset encoding: element 3 is a field
element of account type `FungibleFaucet`, elements 1 and 2 are `ZERO`,
and element 0 is an amount within the 63-bit bound. -/
def validFungibleWord (w : Word) : Prop :=
  w.e3 < fieldModulus ∧ accountTypeOf w.e3 = AccountType.FungibleFaucet ∧
  w.e1 = 0 ∧ w.e2 = 0 ∧ w.e0 ≤ FungibleAsset.MAX_AMOUNT

/-- A word is a valid non-fungible-asset encoding: all elements are field
elements, element 1 is the non-fungible faucet id, and the faucet flag
bit of element 3 is `ZERO` as forced by the encoding. -/
def validNonFungibleWord (w : Word) : Prop :=
  w.e0 < fieldModulus ∧ w.e1 < fieldModulus ∧ w.e2 < fieldModulus ∧
  w.e3 < fieldModulus ∧
  accountTypeOf w.e1 = AccountType.NonFungibleFaucet ∧
  w.e3.testBit 61 = false

instance (w : Word) : Decidable (validFungibleWord w) := by
  unfold validFungibleWord
  infer_instance

instance (w : Word) : Decidable (validNonFungibleWord w) := by
  unfold validNonFungibleWord
  infer_instance

-- HELPER LEMMAS
-- =============================================================================

/-- The mask test of `is_not_a_non_fungible_asset` is exactly a test of
bit 61. -/
theorem land_isfaucet_mask_iff (x : Nat) :
    ((x &&& ACCOUNT_ISFAUCET_MASK) = ACCOUNT_ISFAUCET_MASK) ↔
      x.testBit 61 = true := by
  unfold ACCOUNT_ISFAUCET_MASK
  rw [Nat.and_two_pow]
  cases h : x.testBit 61 <;> simp

/-- An account id of a faucet type has bit 61 set. -/
theorem accountTypeOf_faucet_testBit (id : Nat)
    (h : accountTypeOf id = AccountType.FungibleFaucet ∨
      accountTypeOf id = AccountType.NonFungibleFaucet) :
    id.testBit 61 = true := by
  unfold accountTypeOf at h
  revert h
  cases h1 : id.testBit 61 <;> cases h2 : id.testBit 60 <;> simp

/-- An account id of a non-faucet type has bit 61 clear. -/
theorem accountTypeOf_regular_testBit (id : Nat)
    (h1 : accountTypeOf id ≠ AccountType.FungibleFaucet)
    (h2 : accountTypeOf id ≠ AccountType.NonFungibleFaucet) :
    id.testBit 61 = false := by
  unfold accountTypeOf at h1 h2
  revert h1 h2
  cases hb : id.testBit 61 <;> cases hc : id.testBit 60 <;> simp

/-- Clearing the fungible flag clears bit 61. -/
theorem clearFungibleFlag_testBit (x : Nat) :
    (clearFungibleFlag x).testBit 61 = false := by
  have hm : (NOT_ACCOUNT_ISFAUCET_MASK).testBit 61 = false := by decide
  simp [clearFungibleFlag, Nat.testBit_land, hm]

/-- Little-endian 64-bit round trip of the byte-stream reader/writer. -/
theorem readU64_append (x : Nat) (rest : List Nat) (h : x < 2 ^ 64) :
    readU64 (u64ToBytes x ++ rest) = Except.ok (x, rest) := by
  simp only [u64ToBytes, List.cons_append, List.nil_append, readU64]
  refine congrArg Except.ok (Prod.ext ?_ rfl)
  show x % 256 + 2 ^ 8 * (x / 2 ^ 8 % 256) + 2 ^ 16 * (x / 2 ^ 16 % 256) +
    2 ^ 24 * (x / 2 ^ 24 % 256) + 2 ^ 32 * (x / 2 ^ 32 % 256) +
    2 ^ 40 * (x / 2 ^ 40 % 256) + 2 ^ 48 * (x / 2 ^ 48 % 256) +
    2 ^ 56 * (x / 2 ^ 56 % 256) = x
  omega

/-- Field-element round trip of the byte-stream reader/writer. -/
theorem readFelt_append (x : Nat) (rest : List Nat) (h : x < fieldModulus) :
    readFelt (writeFelt x ++ rest) = Except.ok (x, rest) := by
  have hx : x < 2 ^ 64 := by
    have : fieldModulus ≤ 2 ^ 64 := by unfold fieldModulus; omega
    omega
  unfold readFelt writeFelt
  rw [readU64_append x rest hx]
  simp [h]

-- CLAIM THEOREMS
-- =============================================================================

/-- Claim C2: for every word `w`, `Asset::new_unchecked(w)` classifies `w`
by inspecting only the faucet-flag bit of element 3: if that bit is set
the result is the `Fungible` variant built from `w`, if it is clear the
result is the `NonFungible` variant wrapping `w`, with no other validation
performed. -/
theorem Asset.new_unchecked_classifies (w : Word) :
    ((w.e3 &&& ACCOUNT_ISFAUCET_MASK) = ACCOUNT_ISFAUCET_MASK →
      Asset.new_unchecked w = Asset.Fungible ⟨w.e3, w.e0⟩) ∧
    ((w.e3 &&& ACCOUNT_ISFAUCET_MASK) ≠ ACCOUNT_ISFAUCET_MASK →
      Asset.new_unchecked w = Asset.NonFungible ⟨w⟩) := by
  constructor <;> intro h <;>
    simp [Asset.new_unchecked, is_not_a_non_fungible_asset,
      FungibleAsset.new_unchecked, NonFungibleAsset.new_unchecked,
      beq_iff_eq, h]

/-- Witness for C2 at two concrete words, one with the flag bit set and
one with it clear. -/
theorem Asset.new_unchecked_classifies_witness :
    Asset.new_unchecked ⟨5, 0, 0, 2 ^ 61⟩ = Asset.Fungible ⟨2 ^ 61, 5⟩ ∧
    Asset.new_unchecked ⟨5, 6, 7, 0⟩ = Asset.NonFungible ⟨⟨5, 6, 7, 0⟩⟩ :=
  ⟨(Asset.new_unchecked_classifies ⟨5, 0, 0, 2 ^ 61⟩).1 (by decide),
   (Asset.new_unchecked_classifies ⟨5, 6, 7, 0⟩).2 (by decide)⟩

/-- Claim C3: the flag-bit classification classifies every valid fungible
word as fungible and every valid non-fungible word as non-fungible; it
never misclassifies either. -/
theorem flag_bit_classification (f n : Word) (hf : validFungibleWord f)
    (hn : validNonFungibleWord n) :
    is_not_a_non_fungible_asset f = true ∧
    is_not_a_non_fungible_asset n = false ∧
    (Asset.new_unchecked f).is_fungible = true ∧
    (Asset.new_unchecked n).is_fungible = false := by
  obtain ⟨-, hft, -, -, -⟩ := hf
  obtain ⟨-, -, -, -, -, hnb⟩ := hn
  have hfb : f.e3.testBit 61 = true :=
    accountTypeOf_faucet_testBit f.e3 (Or.inl hft)
  have h1 : is_not_a_non_fungible_asset f = true := by
    simp [is_not_a_non_fungible_asset, beq_iff_eq]
    exact (land_isfaucet_mask_iff f.e3).2 hfb
  have h2 : is_not_a_non_fungible_asset n = false := by
    simp [is_not_a_non_fungible_asset, beq_iff_eq]
    intro heq
    rw [(land_isfaucet_mask_iff n.e3).1 heq] at hnb
    cases hnb
  exact ⟨h1, h2, by simp [Asset.new_unchecked, h1, Asset.is_fungible],
    by simp [Asset.new_unchecked, h2, Asset.is_fungible]⟩

/-- Witness for C3 at a concrete valid fungible word and a concrete valid
non-fungible word. -/
theorem flag_bit_classification_witness :
    (Asset.new_unchecked ⟨10, 0, 0, 2 ^ 61⟩).is_fungible = true ∧
    (Asset.new_unchecked ⟨1, 2 ^ 61 + 2 ^ 60, 2, 3⟩).is_fungible = false :=
  ⟨(flag_bit_classification ⟨10, 0, 0, 2 ^ 61⟩ ⟨1, 2 ^ 61 + 2 ^ 60, 2, 3⟩
      (by decide) (by decide)).2.2.1,
   (flag_bit_classification ⟨10, 0, 0, 2 ^ 61⟩ ⟨1, 2 ^ 61 + 2 ^ 60, 2, 3⟩
      (by decide) (by decide)).2.2.2⟩

/-- Claim C4: `Asset::is_same` is true exactly when both assets are
fungible from the same faucet (amounts ignored) or both are non-fungible
and identical; different variants always compare false. -/
theorem Asset.is_same_spec (a b : Asset) :
    a.is_same b = true ↔
      ((∃ l r, a = Asset.Fungible l ∧ b = Asset.Fungible r ∧
          l.faucet_id = r.faucet_id) ∨
       (∃ m, a = Asset.NonFungible m ∧ b = Asset.NonFungible m)) := by
  cases a <;> cases b <;>
    simp [Asset.is_same, FungibleAsset.is_from_same_faucet, beq_iff_eq]
  exact eq_comm

/-- Claim C6: `Asset::vault_key` is the faucet id (padded into a word) for
fungible assets — equal for same-faucet fungible assets regardless of
amount — and the full encoded word for non-fungible assets, so distinct
non-fungible assets get distinct keys. -/
theorem Asset.vault_key_spec :
    (∀ f : FungibleAsset,
      (Asset.Fungible f).vault_key = ⟨0, 0, 0, f.faucet_id⟩) ∧
    (∀ n : NonFungibleAsset, (Asset.NonFungible n).vault_key = n.word) ∧
    (∀ f g : FungibleAsset, f.faucet_id = g.faucet_id →
      (Asset.Fungible f).vault_key = (Asset.Fungible g).vault_key) ∧
    (∀ n m : NonFungibleAsset, n ≠ m →
      (Asset.NonFungible n).vault_key ≠ (Asset.NonFungible m).vault_key) := by
  refine ⟨fun f => rfl, fun n => rfl, fun f g h => ?_, fun n m h => ?_⟩
  · simp [Asset.vault_key, FungibleAsset.vault_key, h]
  · intro he
    apply h
    cases n with
    | mk nw =>
      cases m with
      | mk mw =>
        simpa [Asset.vault_key, NonFungibleAsset.vault_key] using he

/-- Witness for C6: same-faucet fungible assets with different amounts
share a vault key; distinct non-fungible assets have distinct keys. -/
theorem Asset.vault_key_spec_witness :
    (Asset.Fungible ⟨7, 1⟩).vault_key = (Asset.Fungible ⟨7, 99⟩).vault_key ∧
    (Asset.NonFungible ⟨⟨1, 2, 3, 4⟩⟩).vault_key ≠
      (Asset.NonFungible ⟨⟨1, 2, 3, 5⟩⟩).vault_key :=
  ⟨Asset.vault_key_spec.2.2.1 ⟨7, 1⟩ ⟨7, 99⟩ rfl,
   Asset.vault_key_spec.2.2.2 ⟨⟨1, 2, 3, 4⟩⟩ ⟨⟨1, 2, 3, 5⟩⟩ (by decide)⟩

/-- Claim C7: for every non-fungible faucet id and detail blob, the
encoded non-fungible asset word is
`[digest[0], faucet_id, digest[2], digest[3] with the flag bit cleared]`
where `digest = hash(data)`. -/
theorem NonFungibleAsset.new_encoding (hash : List Nat → Word)
    (details : NonFungibleAssetDetails)
    (h : accountTypeOf details.faucet_id = AccountType.NonFungibleFaucet) :
    NonFungibleAsset.new hash details =
      Except.ok ⟨⟨(hash details.asset_data).e0, details.faucet_id,
        (hash details.asset_data).e2,
        clearFungibleFlag (hash details.asset_data).e3⟩⟩ := by
  simp [NonFungibleAsset.new, h]

/-- Witness for C7 at a concrete hash function, faucet id and blob. -/
theorem NonFungibleAsset.new_encoding_witness :
    NonFungibleAsset.new (fun _ => ⟨1, 2, 3, 2 ^ 61 + 5⟩)
      ⟨2 ^ 61 + 2 ^ 60, []⟩ =
      Except.ok ⟨⟨1, 2 ^ 61 + 2 ^ 60, 3, 5⟩⟩ := by
  have h := NonFungibleAsset.new_encoding (fun _ => ⟨1, 2, 3, 2 ^ 61 + 5⟩)
    ⟨2 ^ 61 + 2 ^ 60, []⟩ (by decide)
  rw [h]
  rfl

/-- Claim C8: for every fungible-faucet id, `FungibleAsset::new` fails
with `AmountTooLarge` at amount `2^63` and succeeds at `2^63 - 1`, and
every constructed fungible asset has amount at most `2^63 - 1`. -/
theorem FungibleAsset.new_amount_bound (faucet_id : Nat)
    (h : accountTypeOf faucet_id = AccountType.FungibleFaucet) :
    FungibleAsset.new faucet_id (2 ^ 63) =
      Except.error (AssetError.AmountTooLarge (2 ^ 63)) ∧
    FungibleAsset.new faucet_id (2 ^ 63 - 1) =
      Except.ok ⟨faucet_id, 2 ^ 63 - 1⟩ ∧
    ∀ amount f, FungibleAsset.new faucet_id amount = Except.ok f →
      f.amount ≤ 2 ^ 63 - 1 := by
  refine ⟨?_, ?_, ?_⟩
  · simp [FungibleAsset.new, FungibleAsset.MAX_AMOUNT]
  · simp [FungibleAsset.new, FungibleAsset.MAX_AMOUNT, h]
  · intro amount f hf
    unfold FungibleAsset.new at hf
    split at hf
    · exact Except.noConfusion hf
    · split at hf
      · exact Except.noConfusion hf
      · injection hf with hf2
        rw [← hf2]
        simp [FungibleAsset.MAX_AMOUNT] at *
        omega

/-- Witness for C8 at the concrete fungible-faucet id `2^61`. -/
theorem FungibleAsset.new_amount_bound_witness :
    FungibleAsset.new (2 ^ 61) (2 ^ 63) =
      Except.error (AssetError.AmountTooLarge (2 ^ 63)) ∧
    FungibleAsset.new (2 ^ 61) (2 ^ 63 - 1) =
      Except.ok ⟨2 ^ 61, 2 ^ 63 - 1⟩ :=
  ⟨(FungibleAsset.new_amount_bound (2 ^ 61) (by decide)).1,
   (FungibleAsset.new_amount_bound (2 ^ 61) (by decide)).2.1⟩

/-- Claim C9: `unwrap_fungible` panics (modelled as `none`) exactly on the
`NonFungible` variant and `unwrap_non_fungible` panics exactly on the
`Fungible` variant; every other embedded operation on `Asset` is a total
function. -/
theorem Asset.unwrap_panics_iff (a : Asset) :
    (a.unwrap_fungible = none ↔ ∃ n, a = Asset.NonFungible n) ∧
    (a.unwrap_non_fungible = none ↔ ∃ f, a = Asset.Fungible f) := by
  cases a <;> simp [Asset.unwrap_fungible, Asset.unwrap_non_fungible]

/-- Claim C10: whenever the checked constructor `Asset::try_from` accepts
a word, the unchecked constructor `Asset::new_unchecked` yields the very
same asset (same variant, same contents). -/
theorem Asset.try_from_agrees_new_unchecked (w : Word) (a : Asset)
    (h : Asset.try_from w = Except.ok a) : Asset.new_unchecked w = a := by
  unfold Asset.try_from at h
  unfold Asset.new_unchecked
  by_cases hb : is_not_a_non_fungible_asset w = true
  · rw [if_pos hb] at h
    rw [if_pos hb]
    cases hF : FungibleAsset.try_from w with
    | error e =>
      rw [hF] at h
      simp [Except.map] at h
    | ok f =>
      rw [hF] at h
      simp [Except.map] at h
      unfold FungibleAsset.try_from at hF
      split at hF
      · exact Except.noConfusion hF
      · unfold FungibleAsset.new at hF
        split at hF
        · exact Except.noConfusion hF
        · split at hF
          · exact Except.noConfusion hF
          · injection hF with hF2
            rw [← h, ← hF2]
            rfl
  · rw [if_neg hb] at h
    rw [if_neg hb]
    cases hN : NonFungibleAsset.try_from w with
    | error e =>
      rw [hN] at h
      simp [Except.map] at h
    | ok n =>
      rw [hN] at h
      simp [Except.map] at h
      unfold NonFungibleAsset.try_from at hN
      split at hN
      · exact Except.noConfusion hN
      · injection hN with hN2
        rw [← h, ← hN2]
        rfl

/-- Witness for C10 at a concrete word accepted by the checked
constructor. -/
theorem Asset.try_from_agrees_witness :
    Asset.new_unchecked ⟨10, 0, 0, 2 ^ 61⟩ = Asset.Fungible ⟨2 ^ 61, 10⟩ :=
  Asset.try_from_agrees_new_unchecked ⟨10, 0, 0, 2 ^ 61⟩
    (Asset.Fungible ⟨2 ^ 61, 10⟩) (by rfl)

/-- Success case of the validating fungible constructor. -/
theorem FungibleAsset.new_ok (fid amt : Nat)
    (ht : accountTypeOf fid = AccountType.FungibleFaucet)
    (ha : amt ≤ FungibleAsset.MAX_AMOUNT) :
    FungibleAsset.new fid amt = Except.ok ⟨fid, amt⟩ := by
  unfold FungibleAsset.new
  rw [if_neg (by omega), if_neg (by simp [ht])]

/-- Success case of the validating non-fungible conversion. -/
theorem NonFungibleAsset.try_from_ok (w : Word)
    (ht : accountTypeOf w.e1 = AccountType.NonFungibleFaucet) :
    NonFungibleAsset.try_from w = Except.ok ⟨w⟩ := by
  unfold NonFungibleAsset.try_from
  rw [if_neg (by simp [ht])]

/-- Claim C5: `Asset::read_from` reads a single leading `AccountId`,
dispatches on its account type to the fungible or non-fungible decoder,
and fails with `InvalidValue` whenever the decoded account type is
neither faucet type; the account id is the only discriminant read. -/
theorem Asset.read_from_dispatch (s : List Nat) (id : Nat)
    (rest : List Nat) (h : readAccountId s = Except.ok (id, rest)) :
    (accountTypeOf id = AccountType.FungibleFaucet →
      Asset.read_from s =
        (FungibleAsset.deserialize_with_account_id id rest).map
          (fun p => (Asset.Fungible p.1, p.2))) ∧
    (accountTypeOf id = AccountType.NonFungibleFaucet →
      Asset.read_from s =
        (NonFungibleAsset.deserialize_with_account_id id rest).map
          (fun p => (Asset.NonFungible p.1, p.2))) ∧
    (accountTypeOf id ≠ AccountType.FungibleFaucet →
      accountTypeOf id ≠ AccountType.NonFungibleFaucet →
      Asset.read_from s = Except.error (DeserializationError.InvalidValue
        "failed to deserialize asset: expected an account ID of type faucet")) := by
  refine ⟨fun ht => ?_, fun ht => ?_, fun hA hB => ?_⟩
  · simp [Asset.read_from, h, ht]
  · simp [Asset.read_from, h, ht]
  · cases ht : accountTypeOf id <;> simp_all [Asset.read_from, h]

/-- Witness for C5: a stream whose leading account id decodes to a
regular (non-faucet) account type is rejected with `InvalidValue`. -/
theorem Asset.read_from_dispatch_witness :
    Asset.read_from (u64ToBytes 0) = Except.error
      (DeserializationError.InvalidValue
        "failed to deserialize asset: expected an account ID of type faucet") :=
  (Asset.read_from_dispatch (u64ToBytes 0) 0 [] (by rfl)).2.2
    (by decide) (by decide)

/-- Claim C1: serialization round trip — for every valid asset `a`,
deserializing the byte stream written for `a` returns exactly `a` and
consumes the whole stream. -/
theorem Asset.serde_round_trip (a : Asset) (h : a.isValid) :
    Asset.read_from (Asset.write_into a) = Except.ok (a, []) := by
  cases a with
  | Fungible f =>
    obtain ⟨hp, ht, ha⟩ := h
    have hamt : f.amount < 2 ^ 64 := by
      unfold FungibleAsset.MAX_AMOUNT at ha
      omega
    have hr : readAccountId (writeAccountId f.faucet_id ++
        u64ToBytes f.amount) = Except.ok (f.faucet_id, u64ToBytes f.amount) :=
      readFelt_append f.faucet_id _ hp
    have hu : readU64 (u64ToBytes f.amount) = Except.ok (f.amount, []) := by
      have h2 := readU64_append f.amount [] hamt
      rwa [List.append_nil] at h2
    simp [Asset.write_into, FungibleAsset.write_into, Asset.read_from, hr,
      ht, FungibleAsset.deserialize_with_account_id, hu,
      FungibleAsset.new_ok f.faucet_id f.amount ht ha, Except.map]
  | NonFungible n =>
    obtain ⟨h0, h1, h2, h3, ht, -⟩ := h
    have hr : readAccountId (writeAccountId n.word.e1 ++
        (writeFelt n.word.e0 ++ (writeFelt n.word.e2 ++
          writeFelt n.word.e3))) =
        Except.ok (n.word.e1, writeFelt n.word.e0 ++
          (writeFelt n.word.e2 ++ writeFelt n.word.e3)) :=
      readFelt_append n.word.e1 _ h1
    have hd0 : readFelt (writeFelt n.word.e0 ++
        (writeFelt n.word.e2 ++ writeFelt n.word.e3)) =
        Except.ok (n.word.e0, writeFelt n.word.e2 ++ writeFelt n.word.e3) :=
      readFelt_append n.word.e0 _ h0
    have hd2 : readFelt (writeFelt n.word.e2 ++ writeFelt n.word.e3) =
        Except.ok (n.word.e2, writeFelt n.word.e3) :=
      readFelt_append n.word.e2 _ h2
    have hd3 : readFelt (writeFelt n.word.e3) = Except.ok (n.word.e3, []) := by
      have hx := readFelt_append n.word.e3 [] h3
      rwa [List.append_nil] at hx
    have hok : NonFungibleAsset.try_from
        ⟨n.word.e0, n.word.e1, n.word.e2, n.word.e3⟩ =
        Except.ok ⟨⟨n.word.e0, n.word.e1, n.word.e2, n.word.e3⟩⟩ :=
      NonFungibleAsset.try_from_ok ⟨n.word.e0, n.word.e1, n.word.e2,
        n.word.e3⟩ ht
    simp [Asset.write_into, NonFungibleAsset.write_into, List.append_assoc,
      Asset.read_from, hr, ht, NonFungibleAsset.deserialize_with_account_id,
      hd0, hd2, hd3, hok, Except.map]

/-- Witness for C1 at a concrete valid fungible asset and a concrete
valid non-fungible asset. -/
theorem Asset.serde_round_trip_witness :
    Asset.read_from (Asset.write_into (Asset.Fungible ⟨2 ^ 61, 100⟩)) =
      Except.ok (Asset.Fungible ⟨2 ^ 61, 100⟩, []) ∧
    Asset.read_from (Asset.write_into
        (Asset.NonFungible ⟨⟨9, 2 ^ 61 + 2 ^ 60, 8, 7⟩⟩)) =
      Except.ok (Asset.NonFungible ⟨⟨9, 2 ^ 61 + 2 ^ 60, 8, 7⟩⟩, []) :=
  ⟨Asset.serde_round_trip (Asset.Fungible ⟨2 ^ 61, 100⟩) (by decide),
   Asset.serde_round_trip (Asset.NonFungible ⟨⟨9, 2 ^ 61 + 2 ^ 60, 8, 7⟩⟩)
     (by decide)⟩
